import Mathlib

/-!
Verification of the connector abstraction and resilient-call protocol of an
MT4/MT5 platform-abstraction layer.

The development shallowly embeds:
  * the decorator `auto_reconnect_mt4` (mt4_connector.py, lines 15-51), which is
    duck-typed over `self.is_connected()` / `self.connect()` and an operation body;
  * the `MT4Connector` methods `connect`, `disconnect`, `is_connected` and
    `get_account_info` (the underlying driver library `MetaTrader4` is modelled as
    an explicit state machine `DriverModel`, so that theorems quantify over every
    driver behaviour, including the driver raising exceptions);
  * the `ConnectorFactory` registry operations and the platform config schemas.

Python exceptions are modelled with `Except Exn`; an `Exn` records its message and
whether it is an instance of the project's `ConnectionError` class.  Stateful
methods are modelled by explicit state passing: a method of an object with state
`S` becomes a function `S → S × result`.
-/

namespace MtServer

/-- A Python exception value as observed by the resilient-call wrapper:
`isConnectionError` models `isinstance(e, ConnectionError)` for the project's own
`ConnectionError` class, and `msg` models `str(e)`. Exceptions coming out of the
raw driver library are modelled with `isConnectionError = false`. -/
structure Exn where
  isConnectionError : Bool
  msg : String
deriving DecidableEq

/-- Does the first list occur at the head of the second? -/
def listStartsWith : List Char → List Char → Bool
  | [], _ => true
  | _ :: _, [] => false
  | a :: as, b :: bs => (a == b) && listStartsWith as bs

/-- Does the first list occur contiguously anywhere in the second? -/
def listHasSub (needle : List Char) : List Char → Bool
  | [] => listStartsWith needle []
  | b :: bs => listStartsWith needle (b :: bs) || listHasSub needle bs

/-- Python's substring test `needle in hay` on strings. -/
def strContains (hay needle : String) : Bool :=
  listHasSub needle.toList hay.toList

/-- Python's `str.lower()` (the identifiers and error messages involved are
ASCII). -/
def strLower (s : String) : String :=
  ⟨s.data.map Char.toLower⟩

/-- The duck-typed interface the decorator `auto_reconnect_mt4` requires of `self`:
a (possibly state-mutating) `is_connected()` and `connect()`, each returning a
boolean.  Neither raises: the connector implementations catch every exception
internally in these two methods. -/
structure ConnIface (S : Type) where
  is_connected : S → S × Bool
  connect : S → S × Bool

/-- The `try:` block of the wrapper produced by `auto_reconnect_mt4`
(mt4_connector.py lines 21-29): pre-check `is_connected()`; if false, attempt
`connect()` and on failure raise `ConnectionError(f"MT4 connection failed before
{func.__name__}")`; otherwise invoke the wrapped operation once. -/
def tryBodyMt4 {S α : Type} (I : ConnIface S) (name : String)
    (func : S → S × Except Exn α) (s : S) : S × Except Exn α :=
  match I.is_connected s with
  | (s1, true) => func s1
  | (s1, false) =>
    match I.connect s1 with
    | (s2, true) => func s2
    | (s2, false) =>
      (s2, Except.error ⟨true, "MT4 connection failed before " ++ name⟩)

/-- The `except Exception as e:` handler of the wrapper (mt4_connector.py lines
30-50): classify the failure as connection-related by `not self.is_connected()`
(a live, state-mutating call, evaluated first), substring heuristics over
`str(e).lower()`, or `isinstance(e, ConnectionError)`; if connection-related,
attempt one `connect()` and either retry the operation once or raise
`ConnectionError(f"MT4 reconnection failed during {func.__name__}: {e}")`;
otherwise re-raise the original exception. -/
def exceptHandlerMt4 {S α : Type} (I : ConnIface S) (name : String)
    (func : S → S × Except Exn α) (s1 : S) (e : Exn) : S × Except Exn α :=
  let estr := (strLower e.msg)
  match I.is_connected s1 with
  | (s2, isc) =>
    if !isc || strContains estr "not connected" || strContains estr "connection"
        || e.isConnectionError then
      match I.connect s2 with
      | (s3, true) => func s3
      | (s3, false) =>
        (s3, Except.error ⟨true, "MT4 reconnection failed during " ++ name ++ ": " ++ e.msg⟩)
    else
      (s2, Except.error e)

/-- The wrapper produced by the decorator `auto_reconnect_mt4` (mt4_connector.py
lines 15-51): run the `try:` block; a normal result is returned as-is, an
exception flows to the handler.  Note that the `ConnectionError` raised by the
pre-check on line 26 is raised inside the `try:` block, so it too flows to the
handler. -/
def auto_reconnect_mt4 {S α : Type} (I : ConnIface S) (name : String)
    (func : S → S × Except Exn α) (s : S) : S × Except Exn α :=
  match tryBodyMt4 I name func s with
  | (s1, Except.ok v) => (s1, Except.ok v)
  | (s1, Except.error e) => exceptHandlerMt4 I name func s1 e

/-! ### Call-count instrumentation

To state "the underlying operation is invoked at most twice" and "no reconnect is
attempted" exactly, we pair the object state with two counters: the first counts
`connect()` calls, the second counts invocations of the wrapped operation.  The
instrumented interface and operation behave exactly like the originals on the
`S` component. -/

/-- Instrument an interface: `connect` bumps the first counter; `is_connected`
touches no counter. -/
def countOps {S : Type} (I : ConnIface S) : ConnIface (S × Nat × Nat) :=
  ⟨fun t => (((I.is_connected t.1).1, t.2.1, t.2.2), (I.is_connected t.1).2),
   fun t => (((I.connect t.1).1, t.2.1 + 1, t.2.2), (I.connect t.1).2)⟩

/-- Instrument a wrapped operation: each invocation bumps the second counter. -/
def countFunc {S α : Type} (g : S → S × Except Exn α) (t : S × Nat × Nat) :
    (S × Nat × Nat) × Except Exn α :=
  (((g t.1).1, t.2.1, t.2.2 + 1), (g t.1).2)

/-! ### The MT4 connector

`MT4Connector` (mt4_connector.py) holds the shared `BaseConnector` state
(`connected`, `account_info`) plus the loaded driver library.  The driver library
`MetaTrader4` is external; it is modelled as a state machine over an arbitrary
driver-state type `D`: each primitive consumes the current driver state and
returns the new state together with either a value or a raised exception
(`Except.error msg`). -/

/-- The driver's account record, as accessed field-by-field by the connector.
Monetary fields are modelled as integers; their values are opaque payloads for
the properties proved here. -/
structure AccountInfo where
  login : Nat
  name : String
  server : String
  currency : String
  balance : Int
  equity : Int
  margin : Int
  margin_free : Int
  margin_level : Int
  profit : Int
  company : String
  trade_allowed : Bool
  trade_expert : Bool
  leverage : Nat
deriving DecidableEq

/-- One behaviour of the underlying `MetaTrader4` driver library, as a state
machine over driver states `D`.  `Except.error msg` models the primitive raising
an exception whose `str` is `msg`. -/
structure DriverModel (D : Type) where
  init : D → D × Except String Bool
  account_info : D → D × Except String (Option AccountInfo)
  shutdown : D → D × Except String Unit

/-- The state of an `MT4Connector` instance: the `BaseConnector` fields
`connected` and `account_info`, whether `self.mt4_lib` is set (a constructed
instance always has it set, since `_initialize_mt4_library` either assigns it or
raises out of the constructor), and the driver state. -/
structure MT4State (D : Type) where
  connected : Bool
  account_info : Option AccountInfo
  mt4_lib : Bool
  driver : D

/-- `MT4Connector.connect` (mt4_connector.py lines 82-128): initialize the
driver, then query `account_info()`; a `None` account result (assigned to
`self.account_info` before the check) is treated as a connection failure.  Every
exception is caught by the method's own handler, which sets
`self.connected = False` and returns `False`; the terminal path and bridge port
drawn from the configuration only select the driver's initialization arguments
and are absorbed into the driver model. -/
def MT4Connector.connect {D : Type} (M : DriverModel D) (s : MT4State D) :
    MT4State D × Bool :=
  if s.mt4_lib = false then
    ({ s with connected := false }, false)
  else
    match M.init s.driver with
    | (d, Except.error _) => ({ s with driver := d, connected := false }, false)
    | (d, Except.ok false) => ({ s with driver := d, connected := false }, false)
    | (d, Except.ok true) =>
      match M.account_info d with
      | (d2, Except.error _) =>
        ({ s with driver := d2, connected := false }, false)
      | (d2, Except.ok none) =>
        ({ s with driver := d2, account_info := none, connected := false }, false)
      | (d2, Except.ok (some ai)) =>
        ({ s with driver := d2, account_info := some ai, connected := true }, true)

/-- `MT4Connector.is_connected` (mt4_connector.py lines 140-156): `False` when
the flag or the library is unset; otherwise a live `account_info()` query.  A
raised exception flips `self.connected` to `False`; a `None` result merely makes
the method return `False`. -/
def MT4Connector.is_connected {D : Type} (M : DriverModel D) (s : MT4State D) :
    MT4State D × Bool :=
  if s.connected = false ∨ s.mt4_lib = false then
    (s, false)
  else
    match M.account_info s.driver with
    | (d, Except.ok ai) => ({ s with driver := d }, ai.isSome)
    | (d, Except.error _) => ({ s with driver := d, connected := false }, false)

/-- `MT4Connector.disconnect` (mt4_connector.py lines 130-138): when connected
and the library is set, call the driver's `shutdown()` and clear the flag; an
exception from `shutdown()` is caught and logged, leaving `self.connected`
untouched. -/
def MT4Connector.disconnect {D : Type} (M : DriverModel D) (s : MT4State D) :
    MT4State D :=
  if s.connected && s.mt4_lib then
    match M.shutdown s.driver with
    | (d, Except.ok _) => { s with driver := d, connected := false }
    | (d, Except.error _) => { s with driver := d }
  else
    s

/-- The account dictionary built by `MT4Connector.get_account_info`
(mt4_connector.py lines 174-189), with its field renamings
(`free_margin` ← `margin_free`, etc.). -/
structure AccountInfoDict where
  login : Nat
  name : String
  server : String
  currency : String
  balance : Int
  equity : Int
  margin : Int
  free_margin : Int
  margin_level : Int
  profit : Int
  company : String
  trade_allowed : Bool
  trade_expert : Bool
  leverage : Nat
deriving DecidableEq

/-- The field-by-field translation of mt4_connector.py lines 174-189. -/
def accountInfoToDict (a : AccountInfo) : AccountInfoDict :=
  { login := a.login
    name := a.name
    server := a.server
    currency := a.currency
    balance := a.balance
    equity := a.equity
    margin := a.margin
    free_margin := a.margin_free
    margin_level := a.margin_level
    profit := a.profit
    company := a.company
    trade_allowed := a.trade_allowed
    trade_expert := a.trade_expert
    leverage := a.leverage }

/-- The body of `MT4Connector.get_account_info` (mt4_connector.py lines 166-193),
before decoration: the `raise ConnectionError("Not connected to MT4")` and every
driver exception are caught by the body's own `except Exception` handler, which
returns `None`; hence the body never raises. -/
def MT4Connector.get_account_info_body {D : Type} (M : DriverModel D)
    (s : MT4State D) : MT4State D × Except Exn (Option AccountInfoDict) :=
  match MT4Connector.is_connected M s with
  | (s1, false) => (s1, Except.ok none)
  | (s1, true) =>
    match M.account_info s1.driver with
    | (d, Except.error _) => ({ s1 with driver := d }, Except.ok none)
    | (d, Except.ok none) => ({ s1 with driver := d }, Except.ok none)
    | (d, Except.ok (some ai)) =>
      ({ s1 with driver := d }, Except.ok (some (accountInfoToDict ai)))

/-- The `self` interface the decorator sees on an `MT4Connector`. -/
def mt4Iface {D : Type} (M : DriverModel D) : ConnIface (MT4State D) :=
  ⟨MT4Connector.is_connected M, MT4Connector.connect M⟩

/-- The decorated `MT4Connector.get_account_info` as seen by callers
(mt4_connector.py lines 158-193): the body wrapped by `auto_reconnect_mt4`. -/
def MT4Connector.get_account_info {D : Type} (M : DriverModel D)
    (s : MT4State D) : MT4State D × Except Exn (Option AccountInfoDict) :=
  auto_reconnect_mt4 (mt4Iface M) "get_account_info"
    (MT4Connector.get_account_info_body M) s

/-! ### The connector factory

`ConnectorFactory` (connector_factory.py) keeps a class-level dict from
lower-cased platform identifier to a connector class.  A Python class is
modelled as a token carrying its name and whether it is a subclass of
`BaseConnector` (the `issubclass` check of `register_connector`); the dict is
modelled as an association list in insertion order, with dict-assignment
replacing in place or appending. -/

/-- A connector class object: its name and whether
`issubclass(cls, BaseConnector)` holds. -/
structure ConnClass where
  name : String
  inheritsBase : Bool
deriving DecidableEq

/-- An opaque configuration mapping; the factory only passes it through. -/
abbrev Config : Type := List (String × String)

/-- An instantiated connector, as returned by `create_connector`:
`connector_class(config)`. -/
structure ConnectorInstance where
  cls : ConnClass
  config : Config

/-- The factory registry `ConnectorFactory._connectors`: a Python dict in
insertion order. -/
abbrev Registry : Type := List (String × ConnClass)

/-- Python dict assignment `d[k] = v`: replace in place when the key exists,
append otherwise. -/
def dictAssign (reg : Registry) (k : String) (v : ConnClass) : Registry :=
  if k ∈ reg.map Prod.fst then
    reg.map fun p => if p.1 = k then (k, v) else p
  else
    reg ++ [(k, v)]

/-- `MT4Connector` as a class object: defined in mt4_connector.py as a subclass
of `BaseConnector`. -/
def mt4Class : ConnClass := ⟨"MT4Connector", true⟩

/-- Modelled from the spec: `MT5Connector` (the platform-5 variant) as a class
object.  Its module `mt5_connector.py` is not among the provided sources; per
the spec every Platform Connector variant implements the Capability Contract
abstract base class, so it is a subclass of `BaseConnector`. -/
def mt5Class : ConnClass := ⟨"MT5Connector", true⟩

/-- The initial registry literal of connector_factory.py lines 14-17. -/
def initialRegistry : Registry := [("mt5", mt5Class), ("mt4", mt4Class)]

/-- `ConnectorFactory.create_connector` (connector_factory.py lines 19-42):
lower-case the identifier; raise
`ValueError(f"Unsupported trading platform: {platform}. Supported platforms:
{supported_platforms}")` when it is not a registry key (`platform` having been
rebound to its lower-cased form, and `supported_platforms` being the comma-join
of the registry's keys); otherwise instantiate the registered class. -/
def ConnectorFactory.create_connector (reg : Registry) (platform : String)
    (config : Config) : Except String ConnectorInstance :=
  let p := (strLower platform)
  match reg.lookup p with
  | none =>
    Except.error ("Unsupported trading platform: " ++ p ++ ". Supported platforms: "
      ++ String.intercalate ", " (reg.map Prod.fst))
  | some c => Except.ok { cls := c, config := config }

/-- `ConnectorFactory.get_supported_platforms` (connector_factory.py lines
44-52). -/
def ConnectorFactory.get_supported_platforms (reg : Registry) : List String :=
  reg.map Prod.fst

/-- `ConnectorFactory.is_platform_supported` (connector_factory.py lines 54-65):
`platform.lower() in cls._connectors`. -/
def ConnectorFactory.is_platform_supported (reg : Registry) (platform : String) :
    Bool :=
  (reg.lookup (strLower platform)).isSome

/-- `ConnectorFactory.register_connector` (connector_factory.py lines 67-79):
raise `ValueError("Connector class must inherit from BaseConnector")` when the
class is not a `BaseConnector` subclass — the raise happens before the registry
assignment, so a rejected registration leaves the registry untouched (the
embedding returns an error without producing a new registry); otherwise assign
`cls._connectors[platform.lower()] = connector_class`. -/
def ConnectorFactory.register_connector (reg : Registry) (platform : String)
    (c : ConnClass) : Except String Registry :=
  if c.inheritsBase = false then
    Except.error "Connector class must inherit from BaseConnector"
  else
    Except.ok (dictAssign reg (strLower platform) c)

/-! ### Platform configuration schemas -/

/-- A schema value: the nested dict/str/int/bool literals of
`get_platform_config_schema`. -/
inductive SchemaVal : Type where
  | str : String → SchemaVal
  | int : Int → SchemaVal
  | bool : Bool → SchemaVal
  | dict : List (String × SchemaVal) → SchemaVal

/-- The `'timeout'` entry shared by both schema literals
(connector_factory.py lines 101-108 and 128-135). -/
def timeoutSchema : SchemaVal :=
  SchemaVal.dict
    [("type", SchemaVal.str "dict"),
     ("required", SchemaVal.bool false),
     ("properties", SchemaVal.dict
       [("connect", SchemaVal.dict
          [("type", SchemaVal.str "integer"), ("default", SchemaVal.int 30)]),
        ("trade", SchemaVal.dict
          [("type", SchemaVal.str "integer"), ("default", SchemaVal.int 10)])])]

/-- The `'mt5'` schema literal (connector_factory.py lines 95-109). -/
def mt5Schema : SchemaVal :=
  SchemaVal.dict
    [("terminal_path", SchemaVal.dict
       [("type", SchemaVal.str "string"),
        ("required", SchemaVal.bool false),
        ("description", SchemaVal.str "MT5 terminal executable path")]),
     ("timeout", timeoutSchema)]

/-- The `'mt4'` schema literal (connector_factory.py lines 110-136). -/
def mt4Schema : SchemaVal :=
  SchemaVal.dict
    [("terminal_path", SchemaVal.dict
       [("type", SchemaVal.str "string"),
        ("required", SchemaVal.bool false),
        ("description", SchemaVal.str "MT4 terminal executable path")]),
     ("bridge_port", SchemaVal.dict
       [("type", SchemaVal.str "integer"),
        ("required", SchemaVal.bool false),
        ("default", SchemaVal.int 7788),
        ("description", SchemaVal.str "MT4 bridge server port")]),
     ("ea_name", SchemaVal.dict
       [("type", SchemaVal.str "string"),
        ("required", SchemaVal.bool false),
        ("default", SchemaVal.str "MT4Bridge"),
        ("description", SchemaVal.str "MT4 Expert Advisor name")]),
     ("timeout", timeoutSchema)]

/-- `ConnectorFactory.get_platform_config_schema` (connector_factory.py lines
81-139): a method-local, fixed table keyed by `'mt5'` and `'mt4'`, read with
`schemas.get(platform.lower(), {})`.  It does not consult the registry, so
runtime registration cannot extend it. -/
def ConnectorFactory.get_platform_config_schema (platform : String) : SchemaVal :=
  let p := (strLower platform)
  if p = "mt5" then mt5Schema
  else if p = "mt4" then mt4Schema
  else SchemaVal.dict []

/-! ### Concrete scenario machines

Small scripted interfaces, operations and drivers used to evaluate the
definitions on closed inputs.  Scripted interfaces use the call position as
their state. -/

/-- A sample driver account record. -/
def aiEx : AccountInfo :=
  ⟨10001, "Demo", "Demo-Server", "USD", 1000, 1000, 0, 1000, 0, 0, "BrokerCo",
   true, true, 100⟩

/-- Scripted interface: never reports connected; `connect` fails at call
positions 0 and 1 and succeeds from position 2 on. -/
def c1Iface : ConnIface Nat :=
  ⟨fun n => (n + 1, false), fun n => (n + 1, decide (2 ≤ n))⟩

/-- Scripted operation: always succeeds with 42. -/
def c1Func (n : Nat) : Nat × Except Exn Nat :=
  (n + 1, Except.ok 42)

/-- Scripted interface whose `connect` always fails. -/
def w1Iface : ConnIface Nat :=
  ⟨fun n => (n + 1, false), fun n => (n + 1, false)⟩

/-- Scripted interface that always reports connected and always reconnects. -/
def c2Iface : ConnIface Nat :=
  ⟨fun n => (n + 1, true), fun n => (n + 1, true)⟩

/-- Scripted operation failing at position 1 with a connection-worded error and
succeeding elsewhere. -/
def c2Func (n : Nat) : Nat × Except Exn Nat :=
  if n = 1 then (2, Except.error ⟨false, "Connection lost"⟩)
  else (n + 1, Except.ok 0)

/-- Scripted interface for the non-connection-failure scenario. -/
def c6Iface : ConnIface Nat :=
  ⟨fun n => (n + 1, true), fun n => (n + 1, true)⟩

/-- Scripted operation failing at position 1 with a data-level error. -/
def c6Func (n : Nat) : Nat × Except Exn Nat :=
  if n = 1 then (2, Except.error ⟨false, "order rejected"⟩)
  else (n + 1, Except.ok 0)

/-- A driver whose every primitive succeeds. -/
def okDriver : DriverModel Unit :=
  ⟨fun _ => ((), Except.ok true), fun _ => ((), Except.ok (some aiEx)),
   fun _ => ((), Except.ok ())⟩

/-- A driver whose initialization call reports failure. -/
def initFailDriver : DriverModel Unit :=
  ⟨fun _ => ((), Except.ok false), fun _ => ((), Except.ok none),
   fun _ => ((), Except.ok ())⟩

/-- A driver whose account query succeeds but returns no account data. -/
def noneAcctDriver : DriverModel Unit :=
  ⟨fun _ => ((), Except.ok true), fun _ => ((), Except.ok none),
   fun _ => ((), Except.ok ())⟩

/-- A driver whose `shutdown` raises on its first call and succeeds afterwards;
the driver state counts shutdown calls. -/
def flakyShutdownDriver : DriverModel Nat :=
  ⟨fun n => (n, Except.ok true), fun n => (n, Except.ok (some aiEx)),
   fun n => (n + 1, if n = 0 then Except.error "shutdown failure" else Except.ok ())⟩

/-- A disconnected connector state over the unit driver. -/
def discState : MT4State Unit := ⟨false, none, true, ()⟩

/-- A connected connector state over the unit driver. -/
def connState : MT4State Unit := ⟨true, some aiEx, true, ()⟩

/-- A connected connector state over the shutdown-counting driver. -/
def connStateN : MT4State Nat := ⟨true, some aiEx, true, 0⟩

/-- Boolean success test for an exception-carrying result. -/
def exceptIsOk {α : Type} : Except Exn α → Bool
  | Except.ok _ => true
  | Except.error _ => false

/-! ### Helper lemmas -/

/-- The `try:` block invokes the wrapped operation at most once. -/
theorem tryBody_funcCount_le {S α : Type} (I : ConnIface S) (name : String)
    (g : S → S × Except Exn α) (s : S) (c f : Nat) :
    (tryBodyMt4 (countOps I) name (countFunc g) (s, c, f)).1.2.2 ≤ f + 1 := by
  rcases h1 : I.is_connected s with ⟨s1, b1⟩
  rcases h2 : I.connect s1 with ⟨s2, b2⟩
  cases b1 <;> cases b2 <;>
    simp [tryBodyMt4, countOps, countFunc, h1, h2]

/-- The exception handler invokes the wrapped operation at most once. -/
theorem handler_funcCount_le {S α : Type} (I : ConnIface S) (name : String)
    (g : S → S × Except Exn α) (t : S × Nat × Nat) (e : Exn) :
    (exceptHandlerMt4 (countOps I) name (countFunc g) t e).1.2.2 ≤ t.2.2 + 1 := by
  rcases t with ⟨s0, c0, f0⟩
  rcases h1 : I.is_connected s0 with ⟨s1, b1⟩
  rcases h2 : I.connect s1 with ⟨s2, b2⟩
  cases b1 <;> cases b2 <;>
    simp [exceptHandlerMt4, countOps, countFunc, h1, h2] <;>
    first
    | omega
    | (split <;> simp)

/-- Whole-wrapper bound: the wrapped operation runs at most twice per call. -/
theorem wrapper_funcCount_le {S α : Type} (I : ConnIface S) (name : String)
    (g : S → S × Except Exn α) (s : S) (c f : Nat) :
    (auto_reconnect_mt4 (countOps I) name (countFunc g) (s, c, f)).1.2.2 ≤ f + 2 := by
  rcases ht : tryBodyMt4 (countOps I) name (countFunc g) (s, c, f) with ⟨t1, r⟩
  have hle : t1.2.2 ≤ f + 1 := by
    have h := tryBody_funcCount_le I name g s c f
    rw [ht] at h
    exact h
  cases r with
  | ok v =>
    simp only [auto_reconnect_mt4, ht]
    omega
  | error e =>
    have hh := handler_funcCount_le I name g t1 e
    simp only [auto_reconnect_mt4, ht]
    omega

/-- If the wrapped operation never raises, the only exceptions that escape the
wrapper are the wrapper's own `ConnectionError`s. -/
theorem wrapper_error_is_connection {S α : Type} (I : ConnIface S) (name : String)
    (g : S → S × Except Exn α) (s : S)
    (hg : ∀ t, exceptIsOk (g t).2 = true) :
    ∀ e, (auto_reconnect_mt4 I name g s).2 = Except.error e →
      e.isConnectionError = true := by
  have hok : ∀ (t : S) (e : Exn), (g t).2 = Except.error e → False := by
    intro t e hgt
    have h := hg t
    rw [hgt] at h
    simp [exceptIsOk] at h
  intro e he
  rcases h1 : I.is_connected s with ⟨s1, b1⟩
  cases b1
  · rcases h2 : I.connect s1 with ⟨s2, b2⟩
    cases b2
    · rcases h3 : I.is_connected s2 with ⟨s3, b3⟩
      rcases h4 : I.connect s3 with ⟨s4, b4⟩
      cases b4
      · simp [auto_reconnect_mt4, tryBodyMt4, exceptHandlerMt4, h1, h2, h3, h4] at he
        rw [← he]
      · rcases hg4 : g s4 with ⟨sa, ra⟩
        rcases ra with e4 | v
        · exact absurd (by rw [hg4]) (fun h => hok s4 e4 h)
        · simp [auto_reconnect_mt4, tryBodyMt4, exceptHandlerMt4, h1, h2, h3, h4, hg4] at he
    · rcases hg2 : g s2 with ⟨sa, ra⟩
      rcases ra with e2 | v
      · exact absurd (by rw [hg2]) (fun h => hok s2 e2 h)
      · simp [auto_reconnect_mt4, tryBodyMt4, h1, h2, hg2] at he
  · rcases hg1 : g s1 with ⟨sa, ra⟩
    rcases ra with e1 | v
    · exact absurd (by rw [hg1]) (fun h => hok s1 e1 h)
    · simp [auto_reconnect_mt4, tryBodyMt4, h1, hg1] at he

/-- A key is found by `lookup` exactly when it is among the registry's keys. -/
theorem lookup_isSome_iff_mem_keys (k : String) (reg : Registry) :
    (List.lookup k reg).isSome = true ↔ k ∈ reg.map Prod.fst := by
  induction reg with
  | nil => simp
  | cons hd t ih =>
    rcases hd with ⟨k1, v1⟩
    by_cases h : k = k1
    · subst h
      simp [List.lookup]
    · simp [List.lookup, beq_eq_false_iff_ne.mpr h, h, ih]

/-- Replacing a present key's value in place makes `lookup` find the new
value. -/
theorem lookup_map_replace (k : String) (v : ConnClass) (reg : Registry)
    (hmem : k ∈ reg.map Prod.fst) :
    List.lookup k (reg.map fun p => if p.1 = k then (k, v) else p) = some v := by
  induction reg with
  | nil => simp at hmem
  | cons hd t ih =>
    rcases hd with ⟨k1, v1⟩
    by_cases h : k1 = k
    · subst h
      simp only [List.map_cons]
      simp [List.lookup]
    · have h2 : (k == k1) = false := beq_eq_false_iff_ne.mpr (Ne.symm h)
      simp only [List.map_cons] at *
      rw [if_neg h] at *
      simp only [List.lookup, h2] at *
      apply ih
      rcases List.mem_cons.mp hmem with h3 | h3
      · exact absurd h3.symm h
      · exact h3

/-- Appending a fresh binding makes `lookup` find it. -/
theorem lookup_append_fresh (k : String) (v : ConnClass) (reg : Registry)
    (hmem : k ∉ reg.map Prod.fst) :
    List.lookup k (reg ++ [(k, v)]) = some v := by
  induction reg with
  | nil => simp [List.lookup]
  | cons hd t ih =>
    rcases hd with ⟨k1, v1⟩
    have h : k ≠ k1 := by
      intro hk
      exact hmem (by simp [hk])
    have h2 : (k == k1) = false := beq_eq_false_iff_ne.mpr h
    simp only [List.cons_append, List.lookup, h2]
    apply ih
    intro hk
    exact hmem (by simp [hk])

/-- After a dict assignment, looking the key up yields the assigned value. -/
theorem lookup_dictAssign (k : String) (v : ConnClass) (reg : Registry) :
    List.lookup k (dictAssign reg k v) = some v := by
  unfold dictAssign
  by_cases hmem : k ∈ reg.map Prod.fst
  · rw [if_pos hmem]
    exact lookup_map_replace k v reg hmem
  · rw [if_neg hmem]
    exact lookup_append_fresh k v reg hmem

/-! ### The claims -/

/-- C2: for every wrapped operation, if the first invocation of the underlying
operation fails with a connection-related failure (detected by a live
`is_connected()` check now returning false, connection-suggestive wording in the
failure message, or an explicit `ConnectionError`) and the single reconnect
attempt succeeds, the operation is retried exactly once and the retry's outcome
(success or failure) is returned as-is — the run makes exactly one `connect()`
call and exactly two invocations of the underlying operation — and, for every
run whatsoever, the underlying operation is invoked at most twice per call,
never more. -/
theorem claim_c2_reconnect_retries_exactly_once :
    (∀ (S α : Type) (I : ConnIface S) (g : S → S × Except Exn α) (name : String)
       (s s1 s2 s3 s4 : S) (b3 : Bool) (e : Exn) (c f : Nat),
       I.is_connected s = (s1, true) →
       g s1 = (s2, Except.error e) →
       I.is_connected s2 = (s3, b3) →
       (b3 = false ∨ strContains (strLower e.msg) "not connected" = true ∨
         strContains (strLower e.msg) "connection" = true ∨ e.isConnectionError = true) →
       I.connect s3 = (s4, true) →
       auto_reconnect_mt4 (countOps I) name (countFunc g) (s, c, f)
         = (((g s4).1, c + 1, f + 2), (g s4).2)) ∧
    (∀ (S α : Type) (I : ConnIface S) (g : S → S × Except Exn α) (name : String)
       (s : S) (c f : Nat),
       (auto_reconnect_mt4 (countOps I) name (countFunc g) (s, c, f)).1.2.2 ≤ f + 2) := by
  constructor
  · intro S α I g name s s1 s2 s3 s4 b3 e c f h1 h2 h3 hcond h4
    rcases hcond with hb | hs | hs | he
    · subst hb
      simp [auto_reconnect_mt4, tryBodyMt4, exceptHandlerMt4, countOps, countFunc,
        h1, h2, h3, h4]
    · simp [auto_reconnect_mt4, tryBodyMt4, exceptHandlerMt4, countOps, countFunc,
        h1, h2, h3, h4, hs]
    · simp [auto_reconnect_mt4, tryBodyMt4, exceptHandlerMt4, countOps, countFunc,
        h1, h2, h3, h4, hs]
    · simp [auto_reconnect_mt4, tryBodyMt4, exceptHandlerMt4, countOps, countFunc,
        h1, h2, h3, h4, he]
  · intro S α I g name s c f
    exact wrapper_funcCount_le I name g s c f

/-- Witness for C2 at a concrete scripted run: starting from position 0, the
operation fails once with "Connection lost", one reconnect happens, and the
retry's success is returned (final counters: 1 connect call, 2 operation
calls). -/
theorem claim_c2_reconnect_retries_exactly_once_witness :
    auto_reconnect_mt4 (countOps c2Iface) "get_positions" (countFunc c2Func) (0, 0, 0)
      = ((5, 0 + 1, 0 + 2), Except.ok 0) := by
  have h := claim_c2_reconnect_retries_exactly_once.1 Nat Nat c2Iface c2Func
    "get_positions" 0 1 2 3 4 true ⟨false, "Connection lost"⟩ 0 0
    rfl rfl rfl (Or.inr (Or.inr (Or.inl (by decide)))) rfl
  exact h

/-- C6: for every wrapped operation, if the first invocation fails with a
failure that is not connection-related (not a `ConnectionError`, the live
`is_connected()` check still true, and no connection-suggestive wording in the
lowered failure message), no reconnect is attempted (the `connect` counter is
unchanged) and the original failure is surfaced to the caller unchanged. -/
theorem claim_c6_non_connection_failure_surfaced_unchanged :
    ∀ (S α : Type) (I : ConnIface S) (g : S → S × Except Exn α) (name : String)
      (s s1 s2 s3 : S) (e : Exn) (c f : Nat),
      I.is_connected s = (s1, true) →
      g s1 = (s2, Except.error e) →
      I.is_connected s2 = (s3, true) →
      e.isConnectionError = false →
      strContains (strLower e.msg) "not connected" = false →
      strContains (strLower e.msg) "connection" = false →
      auto_reconnect_mt4 (countOps I) name (countFunc g) (s, c, f)
        = ((s3, c, f + 1), Except.error e) := by
  intro S α I g name s s1 s2 s3 e c f h1 h2 h3 he hn hc
  simp [auto_reconnect_mt4, tryBodyMt4, exceptHandlerMt4, countOps, countFunc,
    h1, h2, h3, he, hn, hc]

/-- Witness for C6 at a concrete scripted run: the operation fails once with
"order rejected" while still connected; the error is surfaced as-is with zero
`connect` calls and one operation call. -/
theorem claim_c6_non_connection_failure_surfaced_unchanged_witness :
    auto_reconnect_mt4 (countOps c6Iface) "get_orders" (countFunc c6Func) (0, 0, 0)
      = ((3, 0, 0 + 1), Except.error ⟨false, "order rejected"⟩) := by
  exact claim_c6_non_connection_failure_surfaced_unchanged Nat Nat c6Iface c6Func
    "get_orders" 0 1 2 3 ⟨false, "order rejected"⟩ 0 0
    rfl rfl rfl rfl (by decide) (by decide)

/-- Counterexample to C1: a scripted run in which the pre-check finds
`is_connected()` false and the ensuing `connect()` fails (the claim's premise),
yet the call does not fail with a Connection error: the raised pre-check
`ConnectionError` is caught by the wrapper's own handler, a second `connect()`
is attempted (final `connect` counter 2), it succeeds, and the underlying
operation is invoked (final operation counter 1) with its success returned. -/
theorem claim_c1_counterexample :
    c1Iface.is_connected 0 = (1, false) ∧
    c1Iface.connect 1 = (2, false) ∧
    auto_reconnect_mt4 (countOps c1Iface) "get_account_info" (countFunc c1Func) (0, 0, 0)
      = ((5, 2, 1), Except.ok 42) :=
  ⟨rfl, rfl, rfl⟩

/-- C1 (amended): if the pre-check finds `is_connected()` false and the ensuing
`connect()` fails, the `ConnectionError` naming the operation raised by the
pre-check is caught by the wrapper's own exception handler, which attempts one
further reconnect; if that second `connect()` also fails, the call fails with a
Connection error naming the operation and wrapping the pre-check error, and the
underlying operation is never invoked; if the second `connect()` succeeds, the
underlying operation is invoked exactly once and its outcome returned as-is. -/
theorem claim_c1_amended_precheck_failure_reenters_handler :
    ∀ (S α : Type) (I : ConnIface S) (g : S → S × Except Exn α) (name : String)
      (s s1 s2 s3 : S) (b3 : Bool) (c f : Nat),
      I.is_connected s = (s1, false) →
      I.connect s1 = (s2, false) →
      I.is_connected s2 = (s3, b3) →
      (∀ s4, I.connect s3 = (s4, false) →
        auto_reconnect_mt4 (countOps I) name (countFunc g) (s, c, f)
          = ((s4, c + 2, f),
             Except.error ⟨true, "MT4 reconnection failed during " ++ name ++ ": "
               ++ ("MT4 connection failed before " ++ name)⟩)) ∧
      (∀ s4, I.connect s3 = (s4, true) →
        auto_reconnect_mt4 (countOps I) name (countFunc g) (s, c, f)
          = (((g s4).1, c + 2, f + 1), (g s4).2)) := by
  intro S α I g name s s1 s2 s3 b3 c f h1 h2 h3
  constructor <;> intro s4 h4 <;>
    simp [auto_reconnect_mt4, tryBodyMt4, exceptHandlerMt4, countOps, countFunc,
      h1, h2, h3, h4]

/-- Witness for the amended C1 at a scripted run whose `connect` always fails:
the call ends with a Connection error naming the operation, after two `connect`
attempts and zero invocations of the underlying operation. -/
theorem claim_c1_amended_precheck_failure_reenters_handler_witness :
    auto_reconnect_mt4 (countOps w1Iface) "get_account_info" (countFunc c1Func) (0, 0, 0)
      = ((4, 0 + 2, 0),
         Except.error ⟨true, "MT4 reconnection failed during " ++ "get_account_info" ++ ": "
           ++ ("MT4 connection failed before " ++ "get_account_info")⟩) := by
  exact (claim_c1_amended_precheck_failure_reenters_handler Nat Nat w1Iface c1Func
    "get_account_info" 0 1 2 3 false 0 0 rfl rfl rfl).1 4 rfl

/-- C5: for every configuration and driver behaviour, `connect()` never throws
(it is a total function into `Bool` here: its `except Exception` handler absorbs
every driver exception): on any failure — initialization reporting failure,
a driver exception, or a null account result after successful initialization —
it returns false with `connected` set to false, and on returning true it has set
`connected` to true and populated the cached account summary with a non-null
value. -/
theorem claim_c5_connect_reports_state_faithfully :
    ∀ (D : Type) (M : DriverModel D) (s : MT4State D),
      ((MT4Connector.connect M s).2 = false →
        (MT4Connector.connect M s).1.connected = false) ∧
      ((MT4Connector.connect M s).2 = true →
        (MT4Connector.connect M s).1.connected = true ∧
        (MT4Connector.connect M s).1.account_info.isSome = true) := by
  intro D M s
  by_cases hl : s.mt4_lib = false
  · simp [MT4Connector.connect, hl]
  · rcases hi : M.init s.driver with ⟨d, ri⟩
    rcases ri with m | b
    · simp [MT4Connector.connect, hl, hi]
    · cases b
      · simp [MT4Connector.connect, hl, hi]
      · rcases ha : M.account_info d with ⟨d2, ra⟩
        rcases ra with m | oai
        · simp [MT4Connector.connect, hl, hi, ha]
        · rcases oai with _ | ai <;> simp [MT4Connector.connect, hl, hi, ha]

/-- Witness for C5: a failing driver leaves the flag false; a fully successful
driver sets the flag and caches a non-null account summary. -/
theorem claim_c5_connect_reports_state_faithfully_witness :
    (MT4Connector.connect initFailDriver discState).1.connected = false ∧
    ((MT4Connector.connect okDriver discState).1.connected = true ∧
     (MT4Connector.connect okDriver discState).1.account_info.isSome = true) :=
  ⟨(claim_c5_connect_reports_state_faithfully Unit initFailDriver discState).1 rfl,
   (claim_c5_connect_reports_state_faithfully Unit okDriver discState).2 rfl⟩

/-- Counterexample to C3: with the connector connected and the driver's account
query succeeding but returning no account data, `is_connected()` reports false
yet leaves `connected` true — the live check returning no account data does not
flip the flag. -/
theorem claim_c3_counterexample :
    (MT4Connector.is_connected noneAcctDriver connState).2 = false ∧
    (MT4Connector.is_connected noneAcctDriver connState).1.connected = true :=
  ⟨rfl, rfl⟩

/-- C3 (amended): `is_connected()`'s live check flips `connected` to false only
when the account query raises; when the query merely returns no account data the
method reports false while leaving `connected` true (the next call's pre-check
still re-runs the live check, so reconnection is still attempted, but the stated
invariant "connected implies the last account query succeeded" does not hold). -/
theorem claim_c3_amended_flag_flips_only_on_exception :
    ∀ (D : Type) (M : DriverModel D) (s : MT4State D),
      s.connected = true → s.mt4_lib = true →
      (∀ d m, M.account_info s.driver = (d, Except.error m) →
        MT4Connector.is_connected M s
          = ({ s with driver := d, connected := false }, false)) ∧
      (∀ d, M.account_info s.driver = (d, Except.ok none) →
        MT4Connector.is_connected M s = ({ s with driver := d }, false)) := by
  intro D M s hc hl
  constructor
  · intro d m ha
    simp [MT4Connector.is_connected, hc, hl, ha]
  · intro d ha
    simp [MT4Connector.is_connected, hc, hl, ha]

/-- Witness for the amended C3: on the no-account-data driver the live check
returns false with the state's `connected` field untouched. -/
theorem claim_c3_amended_flag_flips_only_on_exception_witness :
    MT4Connector.is_connected noneAcctDriver connState
      = ({ connState with driver := () }, false) :=
  (claim_c3_amended_flag_flips_only_on_exception Unit noneAcctDriver connState
    rfl rfl).2 () rfl

/-- Counterexample to C9: with a driver whose `shutdown` raises on its first
call and succeeds on the second, one `disconnect()` leaves `connected` true (the
exception is swallowed without clearing the flag), while a second `disconnect()`
clears it — so calling it twice does not leave the connector in the same state
as calling it once. -/
theorem claim_c9_counterexample :
    (MT4Connector.disconnect flakyShutdownDriver connStateN).connected = true ∧
    (MT4Connector.disconnect flakyShutdownDriver
      (MT4Connector.disconnect flakyShutdownDriver connStateN)).connected = false :=
  ⟨rfl, rfl⟩

/-- C9 (amended): `disconnect()` never throws (its handler absorbs shutdown
exceptions; it is a total function here); calling it when already disconnected
is a no-op; and when the
tear-down's `shutdown()` call completes without raising, the flag is false
afterwards and a second call is a no-op, so twice equals once.  (When
`shutdown()` raises, `connected` stays true and a later call retries the
tear-down.) -/
theorem claim_c9_amended_disconnect_idempotent_when_shutdown_ok :
    ∀ (D : Type) (M : DriverModel D) (s : MT4State D),
      (s.connected = false → MT4Connector.disconnect M s = s) ∧
      (∀ d u, s.connected = true → s.mt4_lib = true →
        M.shutdown s.driver = (d, Except.ok u) →
        MT4Connector.disconnect M s = { s with driver := d, connected := false } ∧
        MT4Connector.disconnect M (MT4Connector.disconnect M s)
          = MT4Connector.disconnect M s) := by
  intro D M s
  constructor
  · intro hc
    simp [MT4Connector.disconnect, hc]
  · intro d u hc hl hs
    have h1 : MT4Connector.disconnect M s = { s with driver := d, connected := false } := by
      simp [MT4Connector.disconnect, hc, hl, hs]
    refine ⟨h1, ?_⟩
    rw [h1]
    simp [MT4Connector.disconnect]

/-- Witness for the amended C9: with an always-succeeding driver, one
`disconnect()` clears the flag and a second call changes nothing. -/
theorem claim_c9_amended_disconnect_idempotent_when_shutdown_ok_witness :
    MT4Connector.disconnect okDriver connState
      = { connState with driver := (), connected := false } ∧
    MT4Connector.disconnect okDriver (MT4Connector.disconnect okDriver connState)
      = MT4Connector.disconnect okDriver connState :=
  (claim_c9_amended_disconnect_idempotent_when_shutdown_ok Unit okDriver
    connState).2 () () rfl rfl rfl

/-- Counterexample to C4: with a disconnected state and a driver whose
initialization reports failure, the decorated `get_account_info()` raises a
`ConnectionError` across the contract boundary instead of signalling failure via
`None` — so "no operation throws across the contract boundary" fails on the
wrapped operations. -/
theorem claim_c4_counterexample :
    (MT4Connector.get_account_info initFailDriver discState).2
      = Except.error ⟨true, "MT4 reconnection failed during " ++ "get_account_info"
          ++ ": " ++ ("MT4 connection failed before " ++ "get_account_info")⟩ :=
  rfl

/-- C4 (amended): for every driver behaviour, the operation body itself absorbs
all driver exceptions and signals failure via `None` (it never raises), and the
only exception the decorated operation can propagate to the caller is the
project's own `ConnectionError` raised by the resilient-call wrapper when
reconnection fails — no raw driver-library error type ever crosses the
capability-contract boundary. -/
theorem claim_c4_amended_only_connection_errors_escape :
    ∀ (D : Type) (M : DriverModel D) (s : MT4State D),
      (exceptIsOk (MT4Connector.get_account_info_body M s).2 = true) ∧
      (∀ e, (MT4Connector.get_account_info M s).2 = Except.error e →
        e.isConnectionError = true) := by
  intro D M s
  have hbody : ∀ (t : MT4State D),
      exceptIsOk (MT4Connector.get_account_info_body M t).2 = true := by
    intro t
    rcases h1 : MT4Connector.is_connected M t with ⟨t1, b1⟩
    cases b1
    · simp [MT4Connector.get_account_info_body, exceptIsOk, h1]
    · rcases ha : M.account_info t1.driver with ⟨d, ra⟩
      rcases ra with m | oai
      · simp [MT4Connector.get_account_info_body, exceptIsOk, h1, ha]
      · rcases oai with _ | ai <;>
          simp [MT4Connector.get_account_info_body, exceptIsOk, h1, ha]
  exact ⟨hbody s, wrapper_error_is_connection (mt4Iface M) "get_account_info"
    (MT4Connector.get_account_info_body M) s hbody⟩

/-- Witness for the amended C4: the body's success shape on a concrete run, and
the concrete escaped exception of the failing run is a `ConnectionError`. -/
theorem claim_c4_amended_only_connection_errors_escape_witness :
    exceptIsOk (MT4Connector.get_account_info_body okDriver connState).2 = true ∧
    Exn.isConnectionError ⟨true, "MT4 reconnection failed during " ++ "get_account_info"
      ++ ": " ++ ("MT4 connection failed before " ++ "get_account_info")⟩ = true :=
  ⟨(claim_c4_amended_only_connection_errors_escape Unit okDriver connState).1,
   (claim_c4_amended_only_connection_errors_escape Unit initFailDriver discState).2
     _ rfl⟩

/-- C7: for every platform string, registry and configuration,
`create_connector` lower-cases the identifier, fails with the unsupported-
platform error listing exactly the currently registered platform identifiers
precisely when the lowered identifier is not a registry key, and otherwise
constructs an instance of the registered class; `is_platform_supported` returns
true exactly when the lowered identifier is registered. -/
theorem claim_c7_factory_dispatch_and_unsupported_error :
    ∀ (reg : Registry) (p : String) (cfg : Config),
      (List.lookup (strLower p) reg = none →
        ConnectorFactory.create_connector reg p cfg
          = Except.error ("Unsupported trading platform: " ++ strLower p
              ++ ". Supported platforms: "
              ++ String.intercalate ", " (reg.map Prod.fst))) ∧
      (∀ c, List.lookup (strLower p) reg = some c →
        ConnectorFactory.create_connector reg p cfg
          = Except.ok { cls := c, config := cfg }) ∧
      (ConnectorFactory.is_platform_supported reg p = true ↔
        strLower p ∈ reg.map Prod.fst) := by
  intro reg p cfg
  refine ⟨?_, ?_, ?_⟩
  · intro h
    simp [ConnectorFactory.create_connector, h]
  · intro c h
    simp [ConnectorFactory.create_connector, h]
  · simp only [ConnectorFactory.is_platform_supported]
    exact lookup_isSome_iff_mem_keys _ reg

/-- Witness for C7 on the initial registry: `"XYZ"` fails with the error listing
`mt5, mt4`, and `"MT4"` is dispatched to the registered MT4 class. -/
theorem claim_c7_factory_dispatch_and_unsupported_error_witness :
    ConnectorFactory.create_connector initialRegistry "XYZ" []
      = Except.error ("Unsupported trading platform: " ++ strLower "XYZ"
          ++ ". Supported platforms: "
          ++ String.intercalate ", " (initialRegistry.map Prod.fst)) ∧
    ConnectorFactory.create_connector initialRegistry "MT4" []
      = Except.ok { cls := mt4Class, config := [] } :=
  ⟨(claim_c7_factory_dispatch_and_unsupported_error initialRegistry "XYZ" []).1 rfl,
   (claim_c7_factory_dispatch_and_unsupported_error initialRegistry "MT4" []).2.1
     mt4Class rfl⟩

/-- C8: `register_connector` rejects, with an error raised before the registry
assignment (so the registry is left unchanged), any class that is not a
`BaseConnector` subclass — the factory's formalization of satisfying the
capability contract — and after a successful registration `create_connector`
for the new identifier returns an instance of the registered class, which is a
`BaseConnector` subclass. -/
theorem claim_c8_register_rejects_non_contract_class :
    ∀ (reg : Registry) (p : String) (c : ConnClass) (cfg : Config),
      (c.inheritsBase = false →
        ConnectorFactory.register_connector reg p c
          = Except.error "Connector class must inherit from BaseConnector") ∧
      (∀ reg2, c.inheritsBase = true →
        ConnectorFactory.register_connector reg p c = Except.ok reg2 →
        ConnectorFactory.create_connector reg2 p cfg
          = Except.ok { cls := c, config := cfg } ∧
        c.inheritsBase = true) := by
  intro reg p c cfg
  constructor
  · intro h
    simp [ConnectorFactory.register_connector, h]
  · intro reg2 hb hr
    simp only [ConnectorFactory.register_connector, hb] at hr
    have hreg2 : dictAssign reg (strLower p) c = reg2 := by
      simpa using hr
    subst hreg2
    refine ⟨?_, hb⟩
    have hl := lookup_dictAssign (strLower p) c reg
    simp [ConnectorFactory.create_connector, hl]

/-- Witness for C8: registering a non-subclass on the initial registry is
rejected; registering a fresh contract-satisfying class and creating it
succeeds. -/
theorem claim_c8_register_rejects_non_contract_class_witness :
    ConnectorFactory.register_connector initialRegistry "xyz" ⟨"NotAConnector", false⟩
      = Except.error "Connector class must inherit from BaseConnector" ∧
    (ConnectorFactory.create_connector
        (dictAssign initialRegistry (strLower "CTrader") ⟨"CTraderConnector", true⟩)
        "CTrader" []
      = Except.ok { cls := ⟨"CTraderConnector", true⟩, config := [] } ∧
     ConnClass.inheritsBase ⟨"CTraderConnector", true⟩ = true) :=
  ⟨(claim_c8_register_rejects_non_contract_class initialRegistry "xyz"
      ⟨"NotAConnector", false⟩ []).1 rfl,
   (claim_c8_register_rejects_non_contract_class initialRegistry "CTrader"
      ⟨"CTraderConnector", true⟩ []).2
     (dictAssign initialRegistry (strLower "CTrader") ⟨"CTraderConnector", true⟩)
     rfl rfl⟩

/-- C10: `get_platform_config_schema` returns a non-empty schema only for the
identifiers `mt5` and `mt4` (case-insensitive); for every other platform
identifier — including ones added at runtime, since the method-local schema
table takes only the platform string and never consults the registry — it
returns the empty mapping. -/
theorem claim_c10_schema_table_is_fixed :
    ∀ (p : String),
      ((strLower p ≠ "mt5" ∧ strLower p ≠ "mt4") →
        ConnectorFactory.get_platform_config_schema p = SchemaVal.dict []) ∧
      (ConnectorFactory.get_platform_config_schema p = SchemaVal.dict [] ↔
        (strLower p ≠ "mt5" ∧ strLower p ≠ "mt4")) := by
  intro p
  have h5 : mt5Schema ≠ SchemaVal.dict [] := by simp [mt5Schema]
  have h4 : mt4Schema ≠ SchemaVal.dict [] := by simp [mt4Schema]
  have hmain : ConnectorFactory.get_platform_config_schema p = SchemaVal.dict [] ↔
      (strLower p ≠ "mt5" ∧ strLower p ≠ "mt4") := by
    by_cases a : strLower p = "mt5"
    · simp [ConnectorFactory.get_platform_config_schema, a, h5]
    · by_cases b : strLower p = "mt4"
      · simp [ConnectorFactory.get_platform_config_schema, a, b, h4]
      · simp [ConnectorFactory.get_platform_config_schema, a, b]
  exact ⟨fun h => hmain.mpr h, hmain⟩

/-- Witness for C10: the runtime-registrable identifier `"CTrader"` has the
empty schema. -/
theorem claim_c10_schema_table_is_fixed_witness :
    ConnectorFactory.get_platform_config_schema "CTrader" = SchemaVal.dict [] :=
  (claim_c10_schema_table_is_fixed "CTrader").1 ⟨by decide, by decide⟩

end MtServer
